import Mathlib

/-!
Verification development for the SmartRace dual relay controller
(src/smartrace_relay.py).

The file shallowly embeds the event-to-actuation core of the program:
the SmartRace ingestion handler (SmartRaceDataHandler.do_POST, lines
277-357), the VSC countdown monitor (monitor_vsc_timer, lines 137-153),
the relay pulse routine (pulse_relay, lines 98-129), configuration load
(load_config, lines 52-64) and the runtime configuration update
(WebHandler.do_POST, /set-pulse branch, lines 962-981).

Time values (seconds) are modelled as rationals; Python floats such as
0.5 become the corresponding rational literals.  JSON values produced by
json.loads are modelled by the inductive type JVal; Python exceptions by
Except Unit / error result cases.
-/

namespace SmartRace

/-- JSON values, as returned by json.loads (line 290).  Objects are
association lists; json.loads yields unique keys, and dict.get is
modelled as the first-match lookup. -/
inductive JVal where
| jnull : JVal
| jbool : Bool → JVal
| jnum : ℚ → JVal
| jstr : String → JVal
| jarr : List JVal → JVal
| jobj : List (String × JVal) → JVal

/-- Python truthiness, used by statements such as
`if not event_type:` (line 300) and `if not vsc_data:` (line 319). -/
def truthy : JVal → Bool
| JVal.jnull => false
| JVal.jbool b => b
| JVal.jnum q => decide (q ≠ 0)
| JVal.jstr s => decide (s ≠ "")
| JVal.jarr xs => !xs.isEmpty
| JVal.jobj fs => !fs.isEmpty

/-- Python `v.get(key, dflt)`: succeeds on a dict (returning the stored
value, or the default when the key is absent) and raises AttributeError
on any non-dict value. -/
def pyGet (v : JVal) (key : String) (dflt : JVal) : Except Unit JVal :=
match v with
| JVal.jobj fs => Except.ok ((fs.lookup key).getD dflt)
| _ => Except.error ()

/-- Values usable as a number by Python arithmetic such as
`time.time() + duration` (line 334): int/float, and bool (an int
subtype, True = 1).  Any other operand raises TypeError. -/
def toNum : JVal → Option ℚ
| JVal.jnum q => some q
| JVal.jbool b => some (if b then 1 else 0)
| _ => none

/-- Accepted start-class aliases (line 317). -/
def startAliases : List String :=
["race.vsc_deployed", "vscDeployed", "vsc_deployed", "vsc_started", "VSC_DEPLOYED"]

/-- Accepted withdraw-class aliases (line 339). -/
def withdrawAliases : List String :=
["race.vsc_retracted", "vsc_Withdrawn", "vsc_withdrawn", "vscEnded", "vsc_ended", "VSC_WITHDRAWN"]

/-- Python `event_type in [...]`: exact string membership; any non-string
event_type value compares unequal to every alias. -/
def isIn (v : JVal) (l : List String) : Bool :=
match v with
| JVal.jstr s => l.contains s
| _ => false

/-- Extraction of the classification field (lines 297-301):
`event_type = data.get('event_type', '')`, falling back to
`data.get('type', '')` when the first value is falsy.  Raises when
`data` is not a dict. -/
def eventTypeOf (data : JVal) : Except Unit JVal := do
  let t1 ← pyGet data "event_type" (JVal.jstr "")
  if truthy t1 then pure t1 else pyGet data "type" (JVal.jstr "")

/-- The classification value of a JSON object, total form of
`eventTypeOf` on `JVal.jobj fs`. -/
def objEventType (fs : List (String × JVal)) : JVal :=
  let t1 := (fs.lookup "event_type").getD (JVal.jstr "")
  if truthy t1 then t1 else (fs.lookup "type").getD (JVal.jstr "")

theorem eventTypeOf_obj (fs : List (String × JVal)) :
    eventTypeOf (JVal.jobj fs) = Except.ok (objEventType fs) := by
  simp only [eventTypeOf, objEventType, pyGet, bind, Except.bind]
  cases truthy ((fs.lookup "event_type").getD (JVal.jstr "")) <;> simp [pure, Except.pure]

/-- The mutable module-level state touched by the SmartRace handler and
monitor: `vsc_active` / `vsc_end_time` (lines 44-45), the relay pulses
fired so far on each relay (pulse_relay_threaded calls, counted), and
the observability log `last_smartrace_event` / `smartrace_events_log`
(lines 46-47). -/
structure SRState where
  vsc_active : Bool
  vsc_end_time : Option ℚ
  pulses1 : ℕ
  pulses2 : ℕ
  last_event : Option (JVal × JVal)
  events_log : List (JVal × JVal)

/-- Initial (idle) state: no window open, no pulses fired, empty log. -/
def srInit : SRState :=
  ⟨false, none, 0, 0, none, []⟩

/-- Lines 303-311: build the event record (modelled as the classified
type together with the raw payload), store it as the last event, append
it to the log, and evict the oldest entry beyond capacity 100. -/
def appendLog (s : SRState) (et : JVal) (data : JVal) : SRState :=
  let r := (et, data)
  let l := s.events_log ++ [r]
  { s with last_event := some r
           events_log := if 100 < l.length then l.drop 1 else l }

/-- HTTP responses of the ingestion endpoint: 200 with body
`\x7b"status":"ok"\x7d` (lines 347-350) or 500 (lines 356-357). -/
inductive HResp where
| ok200 : HResp
| err500 : HResp

/-- Lines 318-321: `vsc_data = data.get('event', {}).get('data', {})`,
replaced by `data.get('data', {})` when falsy.  Raises when an
intermediate value is not a dict. -/
def vscData (data : JVal) : Except Unit JVal := do
  let e ← pyGet data "event" (JVal.jobj [])
  let v1 ← pyGet e "data" (JVal.jobj [])
  if truthy v1 then pure v1 else pyGet data "data" (JVal.jobj [])

/-- Lines 318-322: the duration value used by the start branch —
`vsc_data.get('duration', 60)` applied to the chosen payload object. -/
def durExtract (data : JVal) : Except Unit JVal := do
  let vd ← vscData data
  pyGet vd "duration" (JVal.jnum 60)

/-- The start branch of the handler (lines 317-336), after the event was
logged.  `now` is the value of time.time() at line 334, i.e. after the
sleep at line 329.  Program order: duration extraction (318-322), sleep
(329), Relay 1 pulse spawned (330), `vsc_active = True` (333),
`vsc_end_time = time.time() + duration` (334).  A non-numeric duration
makes line 334 raise TypeError after lines 330 and 333 already ran. -/
def startBranchU (now : ℚ) (s : SRState) (data : JVal) : HResp × SRState :=
match durExtract data with
| Except.error _ => (HResp.err500, s)
| Except.ok d =>
  let s1 := { s with pulses1 := s.pulses1 + 1 }
  let s2 := { s1 with vsc_active := true }
  match toNum d with
  | some q => (HResp.ok200, { s2 with vsc_end_time := some (now + q) })
  | none => (HResp.err500, s2)

/-- SmartRaceDataHandler.do_POST (lines 277-357).  `body` is the result
of json.loads: `none` models a parse failure (non-JSON payload), which
is answered 500 with no state changed.  `now` is the wall-clock value
read at line 334. -/
def do_POST (now : ℚ) (s : SRState) (body : Option JVal) : HResp × SRState :=
match body with
| none => (HResp.err500, s)
| some data =>
  match eventTypeOf data with
  | Except.error _ => (HResp.err500, s)
  | Except.ok et =>
    let s0 := appendLog s et data
    if isIn et startAliases then
      startBranchU now s0 data
    else if isIn et withdrawAliases then
      (HResp.ok200, { s0 with pulses2 := s0.pulses2 + 1
                              vsc_active := false
                              vsc_end_time := none })
    else
      (HResp.ok200, s0)

/-- The two configuration globals (lines 49-50):
`pulse_duration` (default 0.5 s) and `relay1_delay` (default 5.0 s). -/
structure Globals where
  pulse_duration : ℚ
  relay1_delay : ℚ

/-- Module defaults at lines 49-50. -/
def initGlobals : Globals :=
  ⟨1/2, 5⟩

/-- The bounds invariant from the web form and the /set-pulse checks:
pulse duration in [0.1, 5], start delay in [0, 30]
(lines 761, 764, 972, 974). -/
def configInBounds (g : Globals) : Bool :=
  decide (1/10 ≤ g.pulse_duration) && decide (g.pulse_duration ≤ 5) &&
  decide (0 ≤ g.relay1_delay) && decide (g.relay1_delay ≤ 30)

/-- Outcome of reading the persisted configuration file in load_config
(lines 56-58): the file may be absent (the body is skipped), opening or
parsing it may raise, or it yields a record whose two fields are
modelled as optional rationals (`config.get` supplies the defaults for
absent fields). -/
inductive ConfigLoad where
| fileMissing : ConfigLoad
| loadFailure : ConfigLoad
| loaded : Option ℚ → Option ℚ → ConfigLoad

/-- load_config (lines 52-64).  Line 54 declares `global pulse_duration`
only, so the assignment at line 59 writes the module global while the
assignment `relay1_delay = config.get('relay1_delay', 5.0)` at line 60
binds a function-local name: the module-level `relay1_delay` keeps its
prior value on every path.  No bounds validation is performed on the
loaded values.  The exception handler (lines 62-64) resets only
`pulse_duration` to 0.5. -/
def load_config (g : Globals) : ConfigLoad → Globals
| ConfigLoad.fileMissing => g
| ConfigLoad.loadFailure => ⟨1/2, g.relay1_delay⟩
| ConfigLoad.loaded pd _rd => ⟨pd.getD (1/2), g.relay1_delay⟩

/-- The /set-pulse branch of WebHandler.do_POST (lines 962-977), given
the two parsed float fields (lines 969-970): each field is bounds
checked independently (lines 972-975: `0.1 <= new_duration <= 5`,
`0 <= new_delay <= 30`), an out-of-range field is skipped with the prior
value retained, and save_config (lines 66-74, called at 977) persists
the resulting globals.  Returns (new globals, persisted record). -/
def set_pulse (g : Globals) (new_duration new_delay : ℚ) : Globals × Globals :=
  let g1 := if 1/10 ≤ new_duration ∧ new_duration ≤ 5 then
              { g with pulse_duration := new_duration } else g
  let g2 := if 0 ≤ new_delay ∧ new_delay ≤ 30 then
              { g1 with relay1_delay := new_delay } else g1
  (g2, g2)

/-- Calls made to the GPIO driver by pulse_relay:
`GPIO.output(pin, GPIO.HIGH)` (line 105) and
`GPIO.output(pin, GPIO.LOW)` (line 116). -/
inductive DriverCall where
| setOn : DriverCall
| setOff : DriverCall
deriving DecidableEq

/-- Result of one pulse_relay run: the relay's energized flag
(relay1_state / relay2_state) at return, the driver calls attempted in
order, the time slept, and the returned success flag. -/
structure PulseRun where
  energized : Bool
  calls : List DriverCall
  slept : ℚ
  ok : Bool

/-- pulse_relay (lines 98-129) in the GPIO_AVAILABLE mode, with a driver
oracle: `failOn` / `failOff` say whether the driver raises on the "on"
call (line 105) or on the "off" call (line 116), and `d` is the current
pulse_duration slept at line 113.  The except handler (lines 124-126)
prints and returns False: when the "on" call raises, no "off" call is
attempted; when the "off" call raises, the energized flag set at line
107 is never reset (lines 117-120 are skipped). -/
def pulse_relay (failOn failOff : Bool) (d : ℚ) : PulseRun :=
  if failOn then
    ⟨false, [DriverCall.setOn], 0, false⟩
  else if failOff then
    ⟨true, [DriverCall.setOn, DriverCall.setOff], d, false⟩
  else
    ⟨false, [DriverCall.setOn, DriverCall.setOff], d, true⟩

/-- The expiry test of one monitor tick (lines 143-145):
`vsc_active and vsc_end_time is not None` and
`current_time >= vsc_end_time`. -/
def monCond (now : ℚ) (active : Bool) (endt : Option ℚ) : Bool :=
  active && (match endt with
             | some e => decide (e ≤ now)
             | none => false)

/-- Program counter of the monitor thread inside its loop body
(lines 143-149): about to evaluate the expiry test, about to fire
Relay 2 (line 147), about to clear `vsc_active` (line 148), about to
clear `vsc_end_time` (line 149). -/
inductive MonPc where
| mCheck : MonPc
| mFire : MonPc
| mSetA : MonPc
| mSetT : MonPc
deriving DecidableEq

/-- Program counter of a withdraw-event handler thread inside the
withdraw branch (lines 341-343): about to fire Relay 2 (line 341),
about to clear `vsc_active` (line 342), about to clear `vsc_end_time`
(line 343), done. -/
inductive WdPc where
| wFire : WdPc
| wSetA : WdPc
| wSetT : WdPc
| wDone : WdPc
deriving DecidableEq

/-- Shared state for the monitor/withdraw interleaving: the two VSC
globals, the count of Relay 2 pulses fired, and the two thread program
counters.  The source protects none of this with a lock. -/
structure RaceState where
  vsc_active : Bool
  vsc_end_time : Option ℚ
  pulses2 : ℕ
  mon : MonPc
  wd : WdPc

/-- One atomic step of either thread, at the statement granularity of
the source: the Python lines 143-149 (monitor) and 341-343 (withdraw
handler) each execute as separate interleavable steps on the shared
globals.  `now` is the wall clock read at line 144. -/
inductive RStep (now : ℚ) : RaceState → RaceState → Prop where
| monDecide (s : RaceState) :
    s.mon = MonPc.mCheck → monCond now s.vsc_active s.vsc_end_time = true →
    RStep now s { s with mon := MonPc.mFire }
| monSkip (s : RaceState) :
    s.mon = MonPc.mCheck → monCond now s.vsc_active s.vsc_end_time = false →
    RStep now s s
| monFire (s : RaceState) :
    s.mon = MonPc.mFire →
    RStep now s { s with pulses2 := s.pulses2 + 1, mon := MonPc.mSetA }
| monSetA (s : RaceState) :
    s.mon = MonPc.mSetA →
    RStep now s { s with vsc_active := false, mon := MonPc.mSetT }
| monSetT (s : RaceState) :
    s.mon = MonPc.mSetT →
    RStep now s { s with vsc_end_time := none, mon := MonPc.mCheck }
| wdFire (s : RaceState) :
    s.wd = WdPc.wFire →
    RStep now s { s with pulses2 := s.pulses2 + 1, wd := WdPc.wSetA }
| wdSetA (s : RaceState) :
    s.wd = WdPc.wSetA →
    RStep now s { s with vsc_active := false, wd := WdPc.wSetT }
| wdSetT (s : RaceState) :
    s.wd = WdPc.wSetT →
    RStep now s { s with vsc_end_time := none, wd := WdPc.wDone }

/-- An open countdown window with deadline 65 and no end pulse fired
yet; the monitor is at its expiry test, a withdraw handler has just
entered the withdraw branch. -/
def raceInit : RaceState :=
  ⟨true, some 65, 0, MonPc.mCheck, WdPc.wFire⟩

/-- A state in which the monitor as well as the withdraw handler fired
an end pulse for the one window opened in `raceInit`. -/
def raceDouble : RaceState :=
  ⟨false, none, 2, MonPc.mCheck, WdPc.wDone⟩

/-- Timed actuation events used by the timed models: Relay 1 / Relay 2
pulse on-phase and off-phase, and the opening of a countdown window with
its deadline. -/
inductive TimedAct where
| pulse1On : TimedAct
| pulse1Off : TimedAct
| pulse2On : TimedAct
| pulse2Off : TimedAct
| windowOpen : ℚ → TimedAct
deriving DecidableEq

/-- The start branch (lines 317-336) as a timed trace, for an event
whose processing begins at `t0` under configuration `g` with payload
duration `dur`.  Line 329 sleeps `relay1_delay`, so the main thread
reaches line 330 at `t0 + relay1_delay`; the spawned pulse thread turns
Relay 1 on immediately (line 105) and off `pulse_duration` later
(lines 113-116); the main thread then opens the window (lines 333-334)
with deadline `time.time() + dur` where time.time() is still
`t0 + relay1_delay`. -/
def startBranchTrace (t0 : ℚ) (g : Globals) (dur : ℚ) : List (ℚ × TimedAct) :=
  let t1 := t0 + g.relay1_delay
  [(t1, TimedAct.pulse1On),
   (t1 + g.pulse_duration, TimedAct.pulse1Off),
   (t1, TimedAct.windowOpen (t1 + dur))]

/-- Classified inbound events, for the sequential-server model. -/
inductive SREvent where
| start : ℚ → SREvent
| withdraw : SREvent
| unknown : SREvent

/-- The SmartRace data server (start_smartrace_data_server, lines
989-996) is a plain http.server.HTTPServer: it handles one request at a
time, so an event is processed only once every earlier handler has
returned.  Given the server-free time and the arrival-ordered event
list, this produces the timed actions of the handler threads: a
start-class event sleeps `relay1_delay` inside its handler (line 329)
before pulsing Relay 1 and opening the window, keeping the server busy
for that whole time; a withdraw-class event pulses Relay 2 at once
(line 341); pulse off-phases are carried by spawned threads and are
omitted here. -/
def serverRun (g : Globals) (free : ℚ) : List (ℚ × SREvent) → List (ℚ × TimedAct)
| [] => []
| (t, e) :: rest =>
  let b := if free ≤ t then t else free
  match e with
  | SREvent.start dur =>
      (b + g.relay1_delay, TimedAct.pulse1On) ::
      (b + g.relay1_delay, TimedAct.windowOpen (b + g.relay1_delay + dur)) ::
      serverRun g (b + g.relay1_delay) rest
  | SREvent.withdraw =>
      (b, TimedAct.pulse2On) :: serverRun g b rest
  | SREvent.unknown =>
      serverRun g b rest

/-! Claim theorems. -/

/-- C1: refuted as stated, established as a bug.  The check-then-clear
of the countdown window is not atomic: starting from an open window
whose deadline (65) has passed at wall clock 70, with the monitor at its
expiry test and a withdraw handler entering the withdraw branch, there
is an interleaving of the statement-level steps of
monitor_vsc_timer (lines 143-149) and of the withdraw branch
(lines 341-343) that fires the Relay 2 end pulse twice for that one
window — the monitor passes its expiry test, the withdraw handler then
fires and clears, and the monitor, already committed, fires again. -/
theorem monitor_withdraw_double_end_pulse :
    Relation.ReflTransGen (RStep 70) raceInit raceDouble ∧
    raceDouble.pulses2 = raceInit.pulses2 + 2 := by
  constructor
  · have h1 : RStep 70 raceInit ⟨true, some 65, 0, MonPc.mFire, WdPc.wFire⟩ :=
      RStep.monDecide ⟨true, some 65, 0, MonPc.mCheck, WdPc.wFire⟩ rfl (by norm_num [monCond])
    have h2 : RStep 70 ⟨true, some 65, 0, MonPc.mFire, WdPc.wFire⟩
        ⟨true, some 65, 1, MonPc.mFire, WdPc.wSetA⟩ := RStep.wdFire _ rfl
    have h3 : RStep 70 ⟨true, some 65, 1, MonPc.mFire, WdPc.wSetA⟩
        ⟨false, some 65, 1, MonPc.mFire, WdPc.wSetT⟩ := RStep.wdSetA _ rfl
    have h4 : RStep 70 ⟨false, some 65, 1, MonPc.mFire, WdPc.wSetT⟩
        ⟨false, none, 1, MonPc.mFire, WdPc.wDone⟩ := RStep.wdSetT _ rfl
    have h5 : RStep 70 ⟨false, none, 1, MonPc.mFire, WdPc.wDone⟩
        ⟨false, none, 2, MonPc.mSetA, WdPc.wDone⟩ := RStep.monFire _ rfl
    have h6 : RStep 70 ⟨false, none, 2, MonPc.mSetA, WdPc.wDone⟩
        ⟨false, none, 2, MonPc.mSetT, WdPc.wDone⟩ := RStep.monSetA _ rfl
    have h7 : RStep 70 ⟨false, none, 2, MonPc.mSetT, WdPc.wDone⟩ raceDouble :=
      RStep.monSetT _ rfl
    exact Relation.ReflTransGen.head h1 (Relation.ReflTransGen.head h2
      (Relation.ReflTransGen.head h3 (Relation.ReflTransGen.head h4
      (Relation.ReflTransGen.head h5 (Relation.ReflTransGen.head h6
      (Relation.ReflTransGen.single h7))))))
  · rfl

/-- C2 counterexample: a withdraw-class event arriving in the Idle state
(no window open) still fires an end pulse — the handler (lines 339-343)
has no was-active check, so the claim's "fires the end pulse if and only
if a countdown window was actually open" is false at this input. -/
theorem withdraw_in_idle_fires_end_pulse :
    srInit.vsc_active = false ∧
    (do_POST 0 srInit (some (JVal.jobj [("event_type", JVal.jstr "vsc_withdrawn")]))).2.pulses2
      = srInit.pulses2 + 1 := by
  exact ⟨rfl, rfl⟩

/-- C2 amended: handling a withdraw-class event unconditionally fires
the end pulse and clears the window, whether or not a window was open —
there is no was-active check, so two consecutive withdraws fire two end
pulses, and a withdraw in Idle both fires an end pulse and changes state
(event logged, window fields rewritten). -/
theorem withdraw_unconditionally_fires_and_clears (now : ℚ) (s : SRState)
    (fs : List (String × JVal))
    (h1 : isIn (objEventType fs) startAliases = false)
    (h2 : isIn (objEventType fs) withdrawAliases = true) :
    do_POST now s (some (JVal.jobj fs)) =
      (HResp.ok200,
       { appendLog s (objEventType fs) (JVal.jobj fs) with
           pulses2 := (appendLog s (objEventType fs) (JVal.jobj fs)).pulses2 + 1
           vsc_active := false
           vsc_end_time := none }) := by
  simp [do_POST, eventTypeOf_obj, h1, h2]

/-- C2 amended, witness at a concrete withdraw event from the idle
state. -/
theorem withdraw_unconditionally_fires_and_clears_witness :
    do_POST 0 srInit (some (JVal.jobj [("event_type", JVal.jstr "vsc_withdrawn")])) =
      (HResp.ok200,
       ⟨false, none, 0, 1,
        some (JVal.jstr "vsc_withdrawn", JVal.jobj [("event_type", JVal.jstr "vsc_withdrawn")]),
        [(JVal.jstr "vsc_withdrawn", JVal.jobj [("event_type", JVal.jstr "vsc_withdrawn")])]⟩) :=
  (withdraw_unconditionally_fires_and_clears 0 srInit
    [("event_type", JVal.jstr "vsc_withdrawn")] rfl rfl).trans rfl

/-- C3: refuted as stated, established as a bug.  When the driver raises
during the "on" call, pulse_relay's exception handler (lines 124-126)
returns failure without ever attempting the "off" call; and when the
driver raises during the "off" call, the routine returns with the output
still energized.  The claim's "the off action is still attempted before
the failure is reported" and "leaves the output de-energized ... even
when the driver raises a failure" are both false. -/
theorem pulse_relay_failure_skips_off :
    pulse_relay true false (1/2) = ⟨false, [DriverCall.setOn], 0, false⟩ ∧
    (pulse_relay true false (1/2)).calls.contains DriverCall.setOff = false ∧
    (pulse_relay false true (1/2)).energized = true ∧
    (pulse_relay false true (1/2)).ok = false := by
  exact ⟨rfl, rfl, rfl, rfl⟩

/-- C4: confirmed.  With startDelay 5, pulseDuration 0.5 and payload
duration 60, a start event whose processing begins at t = 0 produces, in
program order: the start pulse on-phase at t = 5, its off-phase at
t = 5.5, and the countdown window opened with deadline 65
(= time after the sleep + duration); and the monitor's expiry test on
that window first holds at the deadline, t = 65, so absent a withdraw
the end pulse fires there. -/
theorem start_event_schedule :
    startBranchTrace 0 ⟨1/2, 5⟩ 60 =
      [(5, TimedAct.pulse1On), (11/2, TimedAct.pulse1Off), (5, TimedAct.windowOpen 65)] ∧
    (∀ t : ℚ, monCond t true (some 65) = true ↔ 65 ≤ t) := by
  constructor
  · norm_num [startBranchTrace]
  · intro t; simp [monCond]

/-- C5: refuted as stated, established as a bug.  The startDelay wait
(time.sleep at line 329) runs inside the request handler of a plain
single-threaded HTTPServer (line 992), so it keeps the ingestion
endpoint busy: with startDelay 5, a start event at t = 0 followed by a
withdraw event at t = 1 yields the withdraw's end pulse only at t = 5 —
after the start handler finishes — not immediately at t = 1. -/
theorem withdraw_blocked_by_start_delay :
    serverRun ⟨1/2, 5⟩ 0 [(0, SREvent.start 60), (1, SREvent.withdraw)] =
      [(5, TimedAct.pulse1On), (5, TimedAct.windowOpen 65), (5, TimedAct.pulse2On)] := by
  norm_num [serverRun]

/-- C6 counterexample: the startup load performs no bounds validation —
starting from the in-bounds defaults, loading a persisted record with
pulse_duration = 10 leaves the configuration outside its bounds, so the
claim's "the bounds invariant holds across every operation that sets
the values (startup load and runtime update)" is false. -/
theorem load_config_violates_bounds :
    configInBounds initGlobals = true ∧
    configInBounds (load_config initGlobals (ConfigLoad.loaded (some 10) none)) = false := by
  constructor
  · norm_num [configInBounds, initGlobals]
  · norm_num [configInBounds, load_config, initGlobals]

/-- C6 amended: the runtime update path alone maintains the bounds
invariant — /set-pulse preserves in-bounds configurations and rejects an
out-of-range pulse duration, retaining (and persisting) the previously
active value — while the startup load applies stored values
unvalidated. -/
theorem set_pulse_preserves_bounds (g : Globals) (d r : ℚ) :
    (configInBounds g = true → configInBounds (set_pulse g d r).1 = true) ∧
    (¬(1/10 ≤ d ∧ d ≤ 5) →
      (set_pulse g d r).1.pulse_duration = g.pulse_duration ∧
      (set_pulse g d r).2.pulse_duration = g.pulse_duration) := by
  constructor
  · intro hg
    simp only [configInBounds, Bool.and_eq_true, decide_eq_true_eq] at hg
    obtain ⟨⟨⟨h1, h2⟩, h3⟩, h4⟩ := hg
    simp only [set_pulse]
    by_cases hd : 1/10 ≤ d ∧ d ≤ 5
    · rw [if_pos hd]
      by_cases hr : 0 ≤ r ∧ r ≤ 30
      · rw [if_pos hr]
        simp only [configInBounds, Bool.and_eq_true, decide_eq_true_eq]
        exact ⟨⟨⟨hd.1, hd.2⟩, hr.1⟩, hr.2⟩
      · rw [if_neg hr]
        simp only [configInBounds, Bool.and_eq_true, decide_eq_true_eq]
        exact ⟨⟨⟨hd.1, hd.2⟩, h3⟩, h4⟩
    · rw [if_neg hd]
      by_cases hr : 0 ≤ r ∧ r ≤ 30
      · rw [if_pos hr]
        simp only [configInBounds, Bool.and_eq_true, decide_eq_true_eq]
        exact ⟨⟨⟨h1, h2⟩, hr.1⟩, hr.2⟩
      · rw [if_neg hr]
        simp only [configInBounds, Bool.and_eq_true, decide_eq_true_eq]
        exact ⟨⟨⟨h1, h2⟩, h3⟩, h4⟩
  · intro hd
    simp only [set_pulse]
    rw [if_neg hd]
    by_cases hr : 0 ≤ r ∧ r ≤ 30
    · rw [if_pos hr]; exact ⟨rfl, rfl⟩
    · rw [if_neg hr]; exact ⟨rfl, rfl⟩

/-- C6 amended, witness: from the default configuration, an update with
pulse_duration = 10 (out of bounds) keeps the configuration in bounds
and retains the active pulse duration 0.5. -/
theorem set_pulse_preserves_bounds_witness :
    configInBounds (set_pulse initGlobals 10 5).1 = true ∧
    (set_pulse initGlobals 10 5).1.pulse_duration = initGlobals.pulse_duration := by
  refine ⟨(set_pulse_preserves_bounds initGlobals 10 5).1 (by norm_num [configInBounds, initGlobals]), ?_⟩
  exact ((set_pulse_preserves_bounds initGlobals 10 5).2 (by norm_num)).1

/-- C7: refuted as stated, established as a bug.  load_config declares
only `global pulse_duration` (line 54), so the assignment at line 60
binds a function-local and the loaded relay1_delay never takes effect:
loading a persisted record with relay1_delay = 10 leaves the start delay
at its prior value 5, not 10.  The failure fallback itself matches the
documented defaults (pulse_duration 0.5, start delay 5). -/
theorem load_config_ignores_stored_delay :
    load_config initGlobals (ConfigLoad.loaded (some (1/2)) (some 10)) = initGlobals ∧
    (load_config initGlobals (ConfigLoad.loaded (some (1/2)) (some 10))).relay1_delay ≠ 10 ∧
    load_config initGlobals ConfigLoad.loadFailure = ⟨1/2, 5⟩ := by
  refine ⟨by norm_num [load_config, initGlobals], ?_, by norm_num [load_config, initGlobals]⟩
  norm_num [load_config, initGlobals]

/-- C8 counterexample: a structurally-valid JSON object that classifies
as start but whose "event" field is the number 5 makes line 318 raise
(`.get` on a non-dict), so the endpoint answers 500, refuting the
claim's "responds 200 for every structurally-valid JSON object
regardless of classification". -/
theorem valid_object_processing_error_500 :
    (do_POST 0 srInit (some (JVal.jobj
      [("event_type", JVal.jstr "vsc_deployed"), ("event", JVal.jnum 5)]))).1
      = HResp.err500 := by
  rfl

/-- C8 amended: a non-JSON payload is answered 500 with no state change
at all, and every structurally-valid JSON object that is not classified
start-class (withdraw-class or unknown) is answered 200; a start-class
object whose nested payload has an unexpected shape is a processing
failure answered 500. -/
theorem ingestion_response_classes :
    (∀ (now : ℚ) (s : SRState), do_POST now s none = (HResp.err500, s)) ∧
    (∀ (now : ℚ) (s : SRState) (fs : List (String × JVal)),
      isIn (objEventType fs) startAliases = false →
      (do_POST now s (some (JVal.jobj fs))).1 = HResp.ok200) := by
  refine ⟨fun _ _ => rfl, fun now s fs h => ?_⟩
  simp only [do_POST, eventTypeOf_obj, h]
  cases hw : isIn (objEventType fs) withdrawAliases <;> simp [hw]

/-- C8 amended, witness: a parse failure from the idle state answers 500
changing nothing, and an unknown-class object answers 200. -/
theorem ingestion_response_classes_witness :
    do_POST 0 srInit none = (HResp.err500, srInit) ∧
    (do_POST 0 srInit (some (JVal.jobj [("event_type", JVal.jstr "foo")]))).1 = HResp.ok200 :=
  ⟨ingestion_response_classes.1 0 srInit,
   ingestion_response_classes.2 0 srInit [("event_type", JVal.jstr "foo")] rfl⟩

/-- C9 counterexample: a start-class event whose duration field holds
the (unparseable) string "60" is not defaulted to 60: line 334 raises
TypeError, the endpoint answers 500, and no deadline is set — refuting
the claim's "defaults to 60 seconds when the duration field is absent or
unparseable". -/
theorem nonnumeric_duration_not_defaulted :
    (do_POST 0 srInit (some (JVal.jobj
      [("event_type", JVal.jstr "vsc_deployed"),
       ("data", JVal.jobj [("duration", JVal.jstr "60")])]))).1 = HResp.err500 ∧
    (do_POST 0 srInit (some (JVal.jobj
      [("event_type", JVal.jstr "vsc_deployed"),
       ("data", JVal.jobj [("duration", JVal.jstr "60")])]))).2.vsc_end_time = none := by
  exact ⟨rfl, rfl⟩

/-- C9 amended: the duration is looked up at the event's nested data
object first and at the top-level data object otherwise, defaulting to
60 when the field is absent — when neither location is present the
extraction yields 60, and a truthy nested event.data object is the one
consulted — but a present non-numeric duration is a processing failure
answered 500, not defaulted. -/
theorem duration_extraction_semantics :
    (∀ fs : List (String × JVal),
      fs.lookup "event" = none → fs.lookup "data" = none →
      durExtract (JVal.jobj fs) = Except.ok (JVal.jnum 60)) ∧
    (∀ (fs efs : List (String × JVal)) (dv : JVal),
      fs.lookup "event" = some (JVal.jobj efs) →
      efs.lookup "data" = some dv → truthy dv = true →
      vscData (JVal.jobj fs) = Except.ok dv) ∧
    (∀ (now : ℚ) (s : SRState) (fs : List (String × JVal)) (d : JVal),
      isIn (objEventType fs) startAliases = true →
      durExtract (JVal.jobj fs) = Except.ok d → toNum d = none →
      (do_POST now s (some (JVal.jobj fs))).1 = HResp.err500) := by
  refine ⟨fun fs h1 h2 => ?_, fun fs efs dv h1 h2 h3 => ?_, fun now s fs d h1 h2 h3 => ?_⟩
  · simp [durExtract, vscData, pyGet, h1, h2, truthy, bind, Except.bind]
  · simp [vscData, pyGet, h1, h2, h3, bind, Except.bind, pure, Except.pure]
  · simp [do_POST, eventTypeOf_obj, h1, startBranchU, h2, h3]

/-- C9 amended, witness: a start-class object with no event and no data
field extracts the default 60; a truthy nested event.data object is the
location consulted; and the string duration "60" yields a 500
response. -/
theorem duration_extraction_semantics_witness :
    durExtract (JVal.jobj [("event_type", JVal.jstr "vsc_deployed")])
      = Except.ok (JVal.jnum 60) ∧
    vscData (JVal.jobj [("event", JVal.jobj [("data", JVal.jobj [("duration", JVal.jnum 30)])])])
      = Except.ok (JVal.jobj [("duration", JVal.jnum 30)]) ∧
    (do_POST 0 srInit (some (JVal.jobj
      [("event_type", JVal.jstr "vsc_started"),
       ("data", JVal.jobj [("duration", JVal.jstr "x")])]))).1 = HResp.err500 :=
  ⟨duration_extraction_semantics.1 [("event_type", JVal.jstr "vsc_deployed")] rfl rfl,
   duration_extraction_semantics.2.1
     [("event", JVal.jobj [("data", JVal.jobj [("duration", JVal.jnum 30)])])]
     [("data", JVal.jobj [("duration", JVal.jnum 30)])]
     (JVal.jobj [("duration", JVal.jnum 30)]) rfl rfl rfl,
   duration_extraction_semantics.2.2 0 srInit
     [("event_type", JVal.jstr "vsc_started"),
      ("data", JVal.jobj [("duration", JVal.jstr "x")])]
     (JVal.jstr "x") rfl rfl rfl⟩

/-- C10: confirmed.  In one /set-pulse request carrying both fields the
two bounds checks act independently: an out-of-range pulse duration
together with an in-range delay applies the new delay while retaining
the old pulse duration, and symmetrically; the resulting mixed record is
both the new active configuration and the persisted one. -/
theorem set_pulse_per_field (g : Globals) (d r : ℚ) :
    (¬(1/10 ≤ d ∧ d ≤ 5) → (0 ≤ r ∧ r ≤ 30) →
      set_pulse g d r = (⟨g.pulse_duration, r⟩, ⟨g.pulse_duration, r⟩)) ∧
    ((1/10 ≤ d ∧ d ≤ 5) → ¬(0 ≤ r ∧ r ≤ 30) →
      set_pulse g d r = (⟨d, g.relay1_delay⟩, ⟨d, g.relay1_delay⟩)) := by
  constructor
  · intro hd hr
    simp only [set_pulse]
    rw [if_neg hd, if_pos hr]
  · intro hd hr
    simp only [set_pulse]
    rw [if_pos hd, if_neg hr]

/-- C10 witness: with pulse_duration = 10 (out of bounds) and
relay1_delay = 12 (in bounds) from the defaults, the delay is applied,
the duration retained, and the mixed record persisted; symmetrically for
an in-bounds duration 2 with an out-of-bounds delay 40. -/
theorem set_pulse_per_field_witness :
    set_pulse initGlobals 10 12 = (⟨1/2, 12⟩, ⟨1/2, 12⟩) ∧
    set_pulse initGlobals 2 40 = (⟨2, 5⟩, ⟨2, 5⟩) :=
  ⟨(set_pulse_per_field initGlobals 10 12).1 (by norm_num) (by norm_num),
   (set_pulse_per_field initGlobals 2 40).2 (by norm_num) (by norm_num)⟩

end SmartRace
